import Mathlib

/-!
Verification model of the openusage plugin engine
(`src-tauri/src/plugin_engine/runtime.rs`, `src-tauri/src/plugin_engine/manifest.rs`,
`src-tauri/src/lib.rs`).

The QuickJS value domain is embedded as an inductive type; JS numbers are
modelled as rationals plus the three non-finite markers (NaN, +inf, -inf),
which is faithful for every comparison the validator performs
(finiteness, sign checks, and equality with 100).  External library calls
(RFC3339 timestamp parsing by the `time` crate, the remote credential
store) are threaded through as explicit function parameters.
-/

namespace Openusage

/-- JS numbers as observed through `Value::as_number` (an f64): either a
finite value, modelled as a rational, or one of the non-finite markers. -/
inductive JSNum where
  | val (q : ℚ)
  | nan
  | inf
  | negInf
deriving DecidableEq

/-- The QuickJS value domain relevant to probe results: primitives, arrays
and plain objects (an association list of string keys). -/
inductive JSValue where
  | undef
  | null
  | boolean (b : Bool)
  | num (n : JSNum)
  | str (s : String)
  | arr (elems : List JSValue)
  | obj (fields : List (String × JSValue))

/-- First-match association-list lookup, the model of a JS property read. -/
def lookupField : List (String × JSValue) → String → Option JSValue
  | [], _ => none
  | (k, v) :: rest, key => if k = key then some v else lookupField rest key

/-- A JS array viewed as an object exposes its elements under their index
keys plus a `length` property (QuickJS arrays are objects). -/
def arrayFields (xs : List JSValue) : List (String × JSValue) :=
  (xs.enum.map (fun p => (toString p.1, p.2))) ++
    [("length", JSValue.num (JSNum.val (xs.length : ℚ)))]

/-- `Object::from_js` succeeds on plain objects and on arrays. -/
def JSValue.asObjectFields : JSValue → Option (List (String × JSValue))
  | .obj fs => some fs
  | .arr xs => some (arrayFields xs)
  | _ => none

/-- `Array::from_js` succeeds only on actual JS arrays. -/
def JSValue.asArrayElems : JSValue → Option (List JSValue)
  | .arr xs => some xs
  | _ => none

/-- `Value::as_number`: defined exactly on JS numbers, no coercion. -/
def JSValue.asNumber : JSValue → Option JSNum
  | .num n => some n
  | _ => none

/-- `Value::as_string`: defined exactly on JS strings, no coercion. -/
def JSValue.asStringVal : JSValue → Option String
  | .str s => some s
  | _ => none

/-- Property read with a `Value` target: always succeeds, a missing
property surfaces as `undefined` (the `Err` arms guarding such reads in
the source are unreachable for data objects). -/
def getValue (o : List (String × JSValue)) (key : String) : JSValue :=
  (lookupField o key).getD JSValue.undef

/-- Property read with a `String` target followed by `unwrap_or_default`. -/
def getString (o : List (String × JSValue)) (key : String) : String :=
  match lookupField o key with
  | some (.str s) => s
  | _ => ""

/-- Property read with a `String` target followed by `.ok()`. -/
def getStringOpt (o : List (String × JSValue)) (key : String) : Option String :=
  match lookupField o key with
  | some (.str s) => some s
  | _ => none

/-- Property read with an `Object` target: fails on missing or non-object. -/
def getObjectField (o : List (String × JSValue)) (key : String) :
    Option (List (String × JSValue)) :=
  (lookupField o key).bind JSValue.asObjectFields

/-- Property read with an `Array` target: fails on missing or non-array. -/
def getArrayField (o : List (String × JSValue)) (key : String) :
    Option (List JSValue) :=
  (lookupField o key).bind JSValue.asArrayElems

/-- `str::trim` modelled on the character list (whitespace stripped from
both ends), written so that it evaluates by kernel reduction. -/
def trimChars (s : String) : String :=
  ⟨((s.data.dropWhile Char.isWhitespace).reverse.dropWhile
    Char.isWhitespace).reverse⟩

/-- `str::to_lowercase` modelled on the character list. -/
def lowerString (s : String) : String :=
  ⟨s.data.map Char.toLower⟩

/-- `str::starts_with` modelled on the character list. -/
def strStartsWith (s pre : String) : Bool :=
  pre.data.isPrefixOf s.data

/-- `str::ends_with` modelled on the character list. -/
def strEndsWith (s suf : String) : Bool :=
  suf.data.isSuffixOf s.data

/-- `ProgressFormat` from `runtime.rs`. -/
inductive ProgressFormat where
  | percent
  | dollars
  | count (suffix : String)
deriving DecidableEq

/-- `MetricLine` from `runtime.rs`; the `used`/`limit` of a constructed
progress line are finite by validation, hence stored as rationals. -/
inductive MetricLine where
  | text (label value : String) (color subtitle : Option String)
  | progress (label : String) (used limit : ℚ) (format : ProgressFormat)
      (resetsAt : Option String) (periodDurationMs : Option ℕ)
      (color : Option String)
  | badge (label text : String) (color subtitle : Option String)
deriving DecidableEq

/-- `PluginOutput` from `runtime.rs`. -/
structure PluginOutput where
  provider_id : String
  display_name : String
  plan : Option String
  lines : List MetricLine
  icon_url : String
deriving DecidableEq

/-- `ManifestLine` from `manifest.rs`. -/
structure ManifestLine where
  line_type : String
  label : String
  scope : String
  primary_order : Option ℕ
deriving DecidableEq

/-- `PluginLink` from `manifest.rs`. -/
structure PluginLink where
  label : String
  url : String
deriving DecidableEq

/-- `PluginManifest` from `manifest.rs`. -/
structure PluginManifest where
  schema_version : ℕ
  id : String
  name : String
  version : String
  entry : String
  icon : String
  brand_color : Option String
  lines : List ManifestLine
  links : List PluginLink
deriving DecidableEq

/-- `LoadedPlugin` from `manifest.rs` (paths modelled as strings). -/
structure LoadedPlugin where
  manifest : PluginManifest
  plugin_dir : String
  entry_script : String
  icon_data_url : String
deriving DecidableEq

/-- `error_line` from `runtime.rs`. -/
def error_line (message : String) : MetricLine :=
  .badge "Error" message (some "#ef4444") none

/-- `error_output` from `runtime.rs`. -/
def error_output (plugin : LoadedPlugin) (message : String) : PluginOutput :=
  { provider_id := plugin.manifest.id
    display_name := plugin.manifest.name
    plan := none
    lines := [error_line message]
    icon_url := plugin.icon_data_url }

/-- Finiteness of an f64 value. -/
def JSNum.isFinite : JSNum → Bool
  | .val _ => true
  | _ => false

/-- Rendering of a number into a validator error message. -/
def JSNum.render : JSNum → String
  | .val q => toString q
  | .nan => "NaN"
  | .inf => "inf"
  | .negInf => "-inf"

/-- `n as u64` on an f64: truncation toward zero, saturating, NaN to 0. -/
def JSNum.toU64 : JSNum → ℕ
  | .val q => if q ≤ 0 then 0 else min (2 ^ 64 - 1) q.floor.toNat
  | .nan => 0
  | .inf => 2 ^ 64 - 1
  | .negInf => 0

/-- The optional `resetsAt` field of a progress entry: trim, try an
RFC3339 parse (the external `time` crate, threaded in as `rfcOk`), then
the one tolerant repair (append a UTC designator when the value looks
ISO-like but carries no timezone), else drop the field. -/
def parseResetsAt (rfcOk : String → Bool) (v : JSValue) : Option String :=
  match v with
  | .null => none
  | .undef => none
  | .str s =>
    let value := trimChars s
    if value = "" then none
    else if rfcOk value then some value
    else
      let tail := match value.splitOn "T" with
        | [] => ""
        | _ :: rest => String.intercalate "T" rest
      let missingTz := value.data.contains 'T' && !(strEndsWith value "Z") &&
        !tail.data.contains '+' && !tail.data.contains '-'
      if missingTz then
        if rfcOk (value ++ "Z") then some (value ++ "Z") else none
      else none
  | _ => none

/-- The optional `periodDurationMs` field: kept only when numeric and,
after `as u64`, positive. -/
def parsePeriodDuration (v : JSValue) : Option ℕ :=
  match v with
  | .null => none
  | .undef => none
  | .num n => let ms := n.toU64; if ms > 0 then some ms else none
  | _ => none

/-- Assembly of a validated progress line (the tail of the `"progress"`
arm of `parse_lines`, after `used`, `limit` and `format` were accepted). -/
def finishProgress (rfcOk : String → Bool) (line : List (String × JSValue))
    (label : String) (color : Option String) (u l : ℚ)
    (format : ProgressFormat) : MetricLine :=
  .progress label u l format
    (parseResetsAt rfcOk (getValue line "resetsAt"))
    (parsePeriodDuration (getValue line "periodDurationMs"))
    color

/-- One loop iteration of `parse_lines` on an entry already converted to
an object: dispatch on the declared type; every branch yields exactly one
line (a typed line or an error badge citing the entry's index). -/
def parseEntry (rfcOk : String → Bool) (idx : ℕ)
    (line : List (String × JSValue)) : MetricLine :=
  let lineType := getString line "type"
  let label := getString line "label"
  let color := getStringOpt line "color"
  let subtitle := getStringOpt line "subtitle"
  if lineType = "text" then
    .text label (getString line "value") color subtitle
  else if lineType = "progress" then
    match (getValue line "used").asNumber with
    | none =>
      error_line ("progress line at index " ++ toString idx ++
        " invalid used (expected number)")
    | some used =>
      match (getValue line "limit").asNumber with
      | none =>
        error_line ("progress line at index " ++ toString idx ++
          " invalid limit (expected number)")
      | some limit =>
        match used with
        | .val u =>
          if u < 0 then
            error_line ("progress line at index " ++ toString idx ++
              " invalid used: " ++ JSNum.render (.val u))
          else
            match limit with
            | .val l =>
              if l ≤ 0 then
                error_line ("progress line at index " ++ toString idx ++
                  " invalid limit: " ++ JSNum.render (.val l))
              else
                match getObjectField line "format" with
                | none =>
                  error_line ("progress line at index " ++ toString idx ++
                    " missing format")
                | some fmt =>
                  match (getValue fmt "kind").asStringVal with
                  | none =>
                    error_line ("progress line at index " ++ toString idx ++
                      " invalid format.kind (expected string)")
                  | some kind =>
                    if kind = "percent" then
                      if l ≠ 100 then
                        error_line ("progress line at index " ++ toString idx ++
                          ": percent format requires limit=100 (got " ++
                          JSNum.render (.val l) ++ ")")
                      else
                        finishProgress rfcOk line label color u l .percent
                    else if kind = "dollars" then
                      finishProgress rfcOk line label color u l .dollars
                    else if kind = "count" then
                      match (getValue fmt "suffix").asStringVal with
                      | none =>
                        error_line ("progress line at index " ++ toString idx ++
                          ": count format suffix must be a string")
                      | some rawSuffix =>
                        let suffix := trimChars rawSuffix
                        if suffix = "" then
                          error_line ("progress line at index " ++ toString idx ++
                            ": count format suffix must be non-empty")
                        else
                          finishProgress rfcOk line label color u l (.count suffix)
                    else
                      error_line ("progress line at index " ++ toString idx ++
                        " invalid format.kind: " ++ kind)
            | other =>
              error_line ("progress line at index " ++ toString idx ++
                " invalid limit: " ++ other.render)
        | other =>
          error_line ("progress line at index " ++ toString idx ++
            " invalid used: " ++ other.render)
  else if lineType = "badge" then
    .badge label (getString line "text") color subtitle
  else
    error_line ("unknown line type at index " ++ toString idx ++ ": " ++ lineType)

/-- The indexed loop of `parse_lines`: an entry that fails the `Object`
conversion aborts the whole parse through the `?` operator with
`invalid line at index idx`; an object entry contributes exactly one line. -/
def parseLinesAux (rfcOk : String → Bool) : ℕ → List JSValue →
    Except String (List MetricLine)
  | _, [] => .ok []
  | idx, v :: rest =>
    match v.asObjectFields with
    | none => .error ("invalid line at index " ++ toString idx)
    | some o =>
      match parseLinesAux rfcOk (idx + 1) rest with
      | .error msg => .error msg
      | .ok tailLines => .ok (parseEntry rfcOk idx o :: tailLines)

/-- `parse_lines` from `runtime.rs`: a missing or non-array `lines` field
fails with `missing lines`, otherwise the indexed loop runs. -/
def parse_lines (rfcOk : String → Bool)
    (result : List (String × JSValue)) : Except String (List MetricLine) :=
  match getArrayField result "lines" with
  | none => .error "missing lines"
  | some xs => parseLinesAux rfcOk 0 xs

/-- The generic fallback message of `extract_error_string`. -/
def fallbackErrorMessage : String :=
  "The plugin failed, try again or contact plugin author."

/-- `extract_error_string` from `runtime.rs`, as a function of the caught
exception value: a string with non-empty trim is used trimmed, everything
else falls back to the generic message. -/
def extract_error_string (exc : JSValue) : String :=
  match exc with
  | .null => fallbackErrorMessage
  | .undef => fallbackErrorMessage
  | .str s =>
    let trimmed := trimChars s
    if trimmed = "" then fallbackErrorMessage else trimmed
  | _ => fallbackErrorMessage

/-- Outcome of synchronously driving a returned promise to completion. -/
inductive PromiseOutcome where
  | resolved (v : JSValue)
  | rejected (exc : JSValue)
  | pending

/-- The outcome of the host-side steps of one probe, in the order the
state machine of `run_probe` takes them.  `callThrew` carries the caught
exception value; a non-promise return carries the returned value.
(`is_promise` followed by `into_promise` cannot fail, so the
`probe() returned invalid promise` arm of the source is unreachable.) -/
inductive ProbeEnv where
  | runtimeFail
  | contextFail
  | injectHostApiFail
  | httpWrapperFail
  | lsWrapperFail
  | utilsFail
  | evalFail
  | missingPluginObj
  | missingProbe
  | callThrew (exc : JSValue)
  | returnedPromise (po : PromiseOutcome)
  | returnedValue (v : JSValue)

/-- The tail of `run_probe` once a result object was obtained: optional
`plan` (kept when a non-empty string), then validation, with an empty
result replaced by the single `no lines returned` badge and a parse
failure by a single badge carrying its message. -/
def probeOutput (plugin : LoadedPlugin) (rfcOk : String → Bool)
    (resultFields : List (String × JSValue)) : PluginOutput :=
  let plan := match getStringOpt resultFields "plan" with
    | some s => if s = "" then none else some s
    | none => none
  let lines := match parse_lines rfcOk resultFields with
    | .ok ls => if ls.isEmpty then [error_line "no lines returned"] else ls
    | .error msg => [error_line msg]
  { provider_id := plugin.manifest.id
    display_name := plugin.manifest.name
    plan := plan
    lines := lines
    icon_url := plugin.icon_data_url }

/-- `run_probe` from `runtime.rs` over the host-step outcome.  When a
promise resolves to a non-object the `Object` conversion fails with no
pending JS exception, so `extract_error_string` sees `undefined`. -/
def run_probe (plugin : LoadedPlugin) (appDataDir appVersion : String)
    (env : ProbeEnv) (rfcOk : String → Bool) : PluginOutput :=
  match env with
  | .runtimeFail => error_output plugin "runtime error"
  | .contextFail => error_output plugin "runtime error"
  | .injectHostApiFail => error_output plugin "host api injection failed"
  | .httpWrapperFail => error_output plugin "http wrapper patch failed"
  | .lsWrapperFail => error_output plugin "ls wrapper patch failed"
  | .utilsFail => error_output plugin "utils injection failed"
  | .evalFail => error_output plugin "script eval failed"
  | .missingPluginObj => error_output plugin "missing __openusage_plugin"
  | .missingProbe => error_output plugin "missing probe()"
  | .callThrew exc => error_output plugin (extract_error_string exc)
  | .returnedPromise .pending =>
    error_output plugin "probe() returned unresolved promise"
  | .returnedPromise (.rejected exc) =>
    error_output plugin (extract_error_string exc)
  | .returnedPromise (.resolved v) =>
    match v.asObjectFields with
    | some o => probeOutput plugin rfcOk o
    | none => error_output plugin (extract_error_string .undef)
  | .returnedValue v =>
    match v.asObjectFields with
    | some o => probeOutput plugin rfcOk o
    | none => error_output plugin "probe() returned non-object"

/-- `sanitize_plugin_links` from `manifest.rs`: trim label and url, drop a
link when either trims to empty or the url scheme is not http(s). -/
def sanitize_plugin_links (pluginId : String) (links : List PluginLink) :
    List PluginLink :=
  links.filterMap (fun link =>
    let label := trimChars link.label
    let url := trimChars link.url
    if label = "" ∨ url = "" then none
    else if ¬ (strStartsWith url "https://" = true ∨
        strStartsWith url "http://" = true) then none
    else some { label := label, url := url })

/-- JSON values under the i64 view that the cache-freshness check takes of
numbers (`as_i64`, with the u64-to-i64 fallback). -/
inductive Json where
  | null
  | boolean (b : Bool)
  | num (n : ℤ)
  | str (s : String)
  | arr (elems : List Json)
  | obj (fields : List (String × Json))

/-- `as_object` on a parsed JSON value. -/
def Json.asObjectFields : Json → Option (List (String × Json))
  | .obj fs => some fs
  | _ => none

/-- First-match association-list lookup (a `HashMap`/`Map` read). -/
def assocLookup {α : Type} : List (String × α) → String → Option α
  | [], _ => none
  | (k, v) :: rest, key => if k = key then some v else assocLookup rest key

/-- A credential payload string, abstracted by its serde_json parse
outcome: `json j` for a string parsing to `j`, `raw s` for a string that
is not valid JSON. -/
inductive Payload where
  | json (j : Json)
  | raw (s : String)

/-- `serde_json::from_str` on a payload string. -/
def Payload.parse : Payload → Option Json
  | .json j => some j
  | .raw _ => none

/-- `parse_epoch_to_ms` from `lib.rs`: a trimmed integer string, read as
milliseconds when above 10^10, as seconds (scaled by 1000) when positive,
rejected otherwise. -/
def parse_epoch_to_ms (value : String) : Option ℤ :=
  match (trimChars value).toInt? with
  | none => none
  | some parsed =>
    if parsed > 10000000000 then some parsed
    else if parsed > 0 then some (parsed * 1000)
    else none

/-- The `"antigravity"` arm of the expiry extraction in
`should_use_cached_overlay`: the `expiresAtMs` field as integer, or a
trimmed integer string. -/
def antigravityExpiryMs (fields : List (String × Json)) : Option ℤ :=
  match assocLookup fields "expiresAtMs" with
  | some (.num n) => some n
  | some (.str s) => (trimChars s).toInt?
  | _ => none

/-- The `"gemini"` arm of the expiry extraction in
`should_use_cached_overlay`: `expiry_date` (or `expiryDate`), a number
read as ms above 10^10 or scaled from seconds when positive, or a string
through `parse_epoch_to_ms`. -/
def geminiExpiryMs (fields : List (String × Json)) : Option ℤ :=
  match (assocLookup fields "expiry_date").orElse
      (fun _ => assocLookup fields "expiryDate") with
  | some (.num n) =>
    if n > 10000000000 then some n
    else if n > 0 then some (n * 1000)
    else none
  | some (.str s) => parse_epoch_to_ms s
  | _ => none

/-- The embedded-expiry extraction of `should_use_cached_overlay`,
dispatched on the plugin id. -/
def embeddedExpiryMs (pluginId : String) (fields : List (String × Json)) :
    Option ℤ :=
  if pluginId = "antigravity" then antigravityExpiryMs fields
  else if pluginId = "gemini" then geminiExpiryMs fields
  else none

/-- `should_use_cached_overlay` from `lib.rs`, with the current time in
milliseconds threaded in: plugins other than antigravity/gemini accept
any cached payload; those two require a parseable payload whose embedded
expiry exceeds now plus 60 000 ms. -/
def should_use_cached_overlay (pluginId : String) (transformed : Payload)
    (nowMs : ℤ) : Bool :=
  if pluginId ≠ "antigravity" ∧ pluginId ≠ "gemini" then true
  else
    match transformed.parse with
    | none => false
    | some parsed =>
      match parsed.asObjectFields with
      | none => false
      | some fields =>
        match embeddedExpiryMs pluginId fields with
        | none => false
        | some expiresAtMs => decide (expiresAtMs > nowMs + 60000)

/-- `supports_credential_overlay` from `lib.rs`. -/
def supports_credential_overlay (pluginId : String) : Bool :=
  pluginId == "codex" || pluginId == "claude" || pluginId == "kimi" ||
    pluginId == "antigravity" || pluginId == "gemini"

/-- `normalize_provider_key` from `lib.rs`. -/
def normalize_provider_key (provider : String) : String :=
  let normalized := lowerString (trimChars provider)
  if normalized = "anthropic" then "claude"
  else if normalized = "google" ∨ normalized = "google-ai" ∨
      normalized = "gemini-cli" then "gemini"
  else normalized

/-- `provider_matches_plugin` from `lib.rs`. -/
def provider_matches_plugin (pluginId provider : String) : Bool :=
  let providerKey := normalize_provider_key provider
  if pluginId = "codex" then providerKey == "codex"
  else if pluginId = "claude" then providerKey == "claude"
  else if pluginId = "kimi" then providerKey == "kimi"
  else if pluginId = "antigravity" then providerKey == "antigravity"
  else if pluginId = "gemini" then providerKey == "gemini"
  else false

/-- The two fallback credential paths of the codex plugin. -/
def defaultCodexPaths : List String :=
  ["~/.config/codex/auth.json", "~/.codex/auth.json"]

/-- `credential_target_paths` from `lib.rs`; the `CODEX_HOME` environment
variable is threaded in, path joins are string concatenation. -/
def credential_target_paths (pluginId : String) (codexHomeEnv : Option String)
    (appDataDir : String) : List String :=
  if pluginId = "codex" then
    match codexHomeEnv with
    | some codexHome =>
      let trimmed : String :=
        ⟨((trimChars codexHome).data.reverse.dropWhile
          (fun c => c = '/')).reverse⟩
      if trimmed ≠ "" then [trimmed ++ "/auth.json"] else defaultCodexPaths
    | none => defaultCodexPaths
  else if pluginId = "claude" then ["~/.claude/.credentials.json"]
  else if pluginId = "kimi" then ["~/.kimi/credentials/kimi-code.json"]
  else if pluginId = "antigravity" then
    [appDataDir ++ "/plugins_data/antigravity/auth.json"]
  else if pluginId = "gemini" then ["~/.gemini/oauth_creds.json"]
  else []

/-- `CliProxyAuthFile`: one entry of the remote credential catalog. -/
structure AuthFile where
  id : String
  name : String
  provider : String
  disabled : Bool
  unavailable : Bool
  auth_index : Option String

/-- The process-wide credential cache (`HashMap<String, String>`),
modelled as an association list whose front insert shadows older
bindings (overwrite semantics). -/
abbrev CredentialCache := List (String × Payload)

/-- `HashMap::insert`: the new binding shadows any previous one. -/
def cacheInsert (cache : CredentialCache) (key : String) (v : Payload) :
    CredentialCache :=
  (key, v) :: cache

/-- `PreparedCredentialOverlay` from `lib.rs`: the path-to-content map
together with the cache key it was built under. -/
structure PreparedCredentialOverlay where
  overlay : List (String × Payload)
  cache_key : Option String

/-- The cache key of `prepare_credential_overlay`:
`pluginId::selection::fingerprint(config)`. -/
def overlayCacheKey (pluginId selected fingerprint : String) : String :=
  pluginId ++ "::" ++ selected ++ "::" ++ fingerprint

/-- The catalog search of `prepare_credential_overlay`: first entry whose
id, name, or alternate index key equals the selection. -/
def findAuthFile (authFiles : List AuthFile) (selected : String) :
    Option AuthFile :=
  authFiles.find? (fun entry =>
    let authIndex := entry.auth_index.getD ""
    entry.id == selected || entry.name == selected || authIndex == selected)

/-- `prepare_credential_overlay` from `lib.rs`.  The remote fingerprint is
threaded in as a string (`config_cache_fingerprint` hashes the remote
secret with an external hasher); `fetch` is the composition of the
external remote-store download (`download_auth_file_by_name`) with
`transform_auth_payload_for_plugin`, both failure modes collapsing to
`none` exactly as each `return None` does in the source.  Returns the
optional prepared overlay together with the cache after the call. -/
def prepare_credential_overlay (pluginId selection : String)
    (codexHomeEnv : Option String) (appDataDir : String)
    (fingerprint : String) (authFiles : List AuthFile)
    (fetch : AuthFile → Option Payload)
    (cache : CredentialCache) (nowMs : ℤ) :
    Option PreparedCredentialOverlay × CredentialCache :=
  if ¬ supports_credential_overlay pluginId then (none, cache)
  else
    let selected := trimChars selection
    if selected = "" then (none, cache)
    else
      let cacheKey := overlayCacheKey pluginId selected fingerprint
      let cachedAccepted : Option Payload :=
        match assocLookup cache cacheKey with
        | some cached =>
          if should_use_cached_overlay pluginId cached nowMs then some cached
          else none
        | none => none
      let step : Option (Payload × CredentialCache) :=
        match cachedAccepted with
        | some transformed => some (transformed, cache)
        | none =>
          match findAuthFile authFiles selected with
          | none => none
          | some authFile =>
            if authFile.disabled || authFile.unavailable then none
            else if ¬ provider_matches_plugin pluginId authFile.provider then
              none
            else
              match fetch authFile with
              | none => none
              | some transformed =>
                some (transformed, cacheInsert cache cacheKey transformed)
      match step with
      | none => (none, cache)
      | some (transformed, cacheAfter) =>
        let targetPaths := credential_target_paths pluginId codexHomeEnv appDataDir
        if targetPaths.isEmpty then (none, cacheAfter)
        else
          (some { overlay := targetPaths.map (fun p => (p, transformed))
                  cache_key := some cacheKey },
            cacheAfter)

/-- `plugin_error_output` from `lib.rs`: the orchestrator's pre-dispatch
error output for a plugin. -/
def plugin_error_output (plugin : LoadedPlugin) (message : String) :
    PluginOutput :=
  { provider_id := plugin.manifest.id
    display_name := plugin.manifest.name
    plan := none
    lines := [.badge "Error" message (some "#ef4444") none]
    icon_url := plugin.icon_data_url }

/-- The failure classification of `start_probe_batch`: an output counts as
failed exactly when some line is a badge labelled `Error`. -/
def outputHasError (output : PluginOutput) : Bool :=
  output.lines.any (fun line =>
    match line with
    | .badge label _ _ _ => label == "Error"
    | _ => false)

/-- The worker-closure body of `start_probe_batch`: a recorded pre-dispatch
overlay error short-circuits to the error output, otherwise the sandbox
runs. -/
def executionOutput (plugin : LoadedPlugin) (overlayError : Option String)
    (appDataDir appVersion : String) (env : ProbeEnv)
    (rfcOk : String → Bool) : PluginOutput :=
  match overlayError with
  | some message => plugin_error_output plugin message
  | none => run_probe plugin appDataDir appVersion env rfcOk

/-- The per-plugin overlay failure message of `start_probe_batch`. -/
def overlayFailMessage : String :=
  "Failed to load selected CLIProxy account. Verify selection and credentials."

/-- The message recorded when the remote catalog fetch fails. -/
def authListFailMessage : String :=
  "Failed to load CLIProxy account list. Check CLIProxyAPI connection."

/-- The message recorded when CLIProxyAPI is not configured. -/
def notConfiguredMessage : String :=
  "CLIProxyAPI is not configured. Select Local account or configure CLIProxyAPI."

/-- The message recorded when the CLIProxyAPI config read fails. -/
def configReadFailMessage : String :=
  "Failed to read CLIProxyAPI config. Select Local account or reconfigure CLIProxyAPI."

/-- Outcome of the external CLIProxyAPI setup consulted before overlay
resolution: a loaded config with its fingerprint, catalog and fetcher, or
one of the three failure shapes of the source's match. -/
inductive CliProxySetup where
  | ok (fingerprint : String) (authFiles : List AuthFile)
      (fetch : AuthFile → Option Payload)
  | listFailed
  | notConfigured
  | configReadFailed

/-- The overlay-resolution loop of `start_probe_batch` on the loaded-config
path: a plugin without a selection entry is skipped; one with an entry
gets either a prepared overlay or the generic per-plugin failure message,
the shared cache threading through the calls. -/
def resolveLoop (fingerprint : String) (authFiles : List AuthFile)
    (fetch : AuthFile → Option Payload) (codexHomeEnv : Option String)
    (appDataDir : String) (nowMs : ℤ)
    (selections : List (String × String)) :
    List LoadedPlugin → CredentialCache →
    (List (String × PreparedCredentialOverlay) × List (String × String) ×
      CredentialCache)
  | [], cache => ([], [], cache)
  | plugin :: rest, cache =>
    let pluginId := plugin.manifest.id
    match assocLookup selections pluginId with
    | none =>
      resolveLoop fingerprint authFiles fetch codexHomeEnv appDataDir nowMs
        selections rest cache
    | some selection =>
      let prepared := prepare_credential_overlay pluginId selection
        codexHomeEnv appDataDir fingerprint authFiles fetch cache nowMs
      let restResult := resolveLoop fingerprint authFiles fetch codexHomeEnv
        appDataDir nowMs selections rest prepared.2
      match prepared.1 with
      | some p => ((pluginId, p) :: restResult.1, restResult.2.1, restResult.2.2)
      | none =>
        (restResult.1, (pluginId, overlayFailMessage) :: restResult.2.1,
          restResult.2.2)

/-- The overlay-resolution phase of `start_probe_batch`: nothing happens
without selections; with selections, the loop runs when the config and
catalog loaded, and otherwise every plugin holding a selection entry is
assigned the corresponding error message. -/
def resolveOverlays (selectedPlugins : List LoadedPlugin)
    (selections : List (String × String)) (setup : CliProxySetup)
    (codexHomeEnv : Option String) (appDataDir : String)
    (cache : CredentialCache) (nowMs : ℤ) :
    (List (String × PreparedCredentialOverlay) × List (String × String) ×
      CredentialCache) :=
  if selections.isEmpty then ([], [], cache)
  else
    match setup with
    | .ok fingerprint authFiles fetch =>
      resolveLoop fingerprint authFiles fetch codexHomeEnv appDataDir nowMs
        selections selectedPlugins cache
    | .listFailed =>
      ([], selectedPlugins.filterMap (fun p =>
          if (assocLookup selections p.manifest.id).isSome then
            some (p.manifest.id, authListFailMessage)
          else none),
        cache)
    | .notConfigured =>
      ([], selectedPlugins.filterMap (fun p =>
          if (assocLookup selections p.manifest.id).isSome then
            some (p.manifest.id, notConfiguredMessage)
          else none),
        cache)
    | .configReadFailed =>
      ([], selectedPlugins.filterMap (fun p =>
          if (assocLookup selections p.manifest.id).isSome then
            some (p.manifest.id, configReadFailMessage)
          else none),
        cache)

/-- The outcome of one worker at the `catch_unwind` boundary: the closure
either ran to completion with an output (success or graceful error) or
panicked. -/
inductive TaskOutcome where
  | completed (output : PluginOutput)
  | panicked
deriving DecidableEq

/-- The observable events a batch worker can emit. -/
inductive BatchEvent where
  | result (output : PluginOutput)
  | batchComplete
deriving DecidableEq

/-- The event-emitting tail of one worker: a completed run emits its
result event, a panic emits nothing; then the unconditional
`fetch_sub(1)` runs, and the worker that observes the previous value 1
(the counter reaching zero) emits the batch-complete event.  Returns the
events together with the new counter value. -/
def taskEvents (outcome : TaskOutcome) (counter : ℕ) :
    List BatchEvent × ℕ :=
  let resultEvents := match outcome with
    | .completed output => [BatchEvent.result output]
    | .panicked => []
  (resultEvents ++ (if counter = 1 then [BatchEvent.batchComplete] else []),
    counter - 1)

/-- The completions of a batch in the order they finish.  Because every
decrement is a single atomic `fetch_sub`, any concurrent schedule is
equivalent to some total order of completions, which the list argument
ranges over. -/
def runBatchWorkers : List TaskOutcome → ℕ → List BatchEvent × ℕ
  | [], counter => ([], counter)
  | outcome :: rest, counter =>
    let head := taskEvents outcome counter
    let tail := runBatchWorkers rest head.2
    (head.1 ++ tail.1, tail.2)

/-- The events of a batch whose shared counter starts at the effective
list's length, as `start_probe_batch` initializes it. -/
def batchEvents (outcomes : List TaskOutcome) : List BatchEvent :=
  (runBatchWorkers outcomes outcomes.length).1

/-- Removal of every binding of a key, for comparing a rejected cache hit
with a true cache miss. -/
def cacheErase (cache : CredentialCache) (key : String) : CredentialCache :=
  cache.filter (fun kv => kv.1 ≠ key)

/-- A timestamp-parse oracle instance under which no string parses, used
to evaluate the model on concrete inputs. -/
def rfcNever : String → Bool := fun _ => false

/-- An error badge as both error-line constructors build it: label
`Error`, color `#ef4444`. -/
def isErrorBadgeLine : MetricLine → Bool
  | .badge label _ color _ => label == "Error" && color == some "#ef4444"
  | _ => false

/-- The host-step outcomes that end the probe before a result object is in
hand: everything except a return of (or a resolution to) an object. -/
def ProbeEnv.isFailure : ProbeEnv → Bool
  | .returnedValue v => !(v.asObjectFields).isSome
  | .returnedPromise (.resolved v) => !(v.asObjectFields).isSome
  | _ => true

/-- The per-entry pass of the validator over a sequence of object
entries: every entry contributes exactly one output line. -/
def parseAllObjects (rfcOk : String → Bool) : ℕ → List JSValue → List MetricLine
  | _, [] => []
  | idx, v :: rest =>
    parseEntry rfcOk idx ((v.asObjectFields).getD []) ::
      parseAllObjects rfcOk (idx + 1) rest

/-- A link with label and url trimmed. -/
def trimmedLink (link : PluginLink) : PluginLink :=
  { label := trimChars link.label, url := trimChars link.url }

/-- The keep condition of link sanitization, on an already-trimmed link. -/
def linkKept (link : PluginLink) : Bool :=
  link.label ≠ "" && link.url ≠ "" &&
    (strStartsWith link.url "https://" || strStartsWith link.url "http://")

/-- Recognizer of the batch-complete event. -/
def isCompleteEvent : BatchEvent → Bool
  | .batchComplete => true
  | _ => false

/-- A concrete loaded plugin, mirroring the runtime test fixture. -/
def testPlugin : LoadedPlugin :=
  { manifest :=
    { schema_version := 1
      id := "test"
      name := "Test"
      version := "0.0.0"
      entry := "plugin.js"
      icon := "icon.svg"
      brand_color := none
      lines := []
      links := [] }
    plugin_dir := "."
    entry_script := ""
    icon_data_url := "data:image/svg+xml;base64," }

/-- A concrete loaded plugin carrying the overlay-supporting id `codex`. -/
def codexPlugin : LoadedPlugin :=
  { manifest :=
    { schema_version := 1
      id := "codex"
      name := "Codex"
      version := "0.0.0"
      entry := "plugin.js"
      icon := "icon.svg"
      brand_color := none
      lines := []
      links := [] }
    plugin_dir := "."
    entry_script := ""
    icon_data_url := "data:image/svg+xml;base64," }

/-- A progress entry with percent format, parameterized by its numeric
`used` and `limit` fields. -/
def percentProbeLine (label : String) (used limit : JSNum) :
    List (String × JSValue) :=
  [("type", .str "progress"), ("label", .str label), ("used", .num used),
    ("limit", .num limit), ("format", .obj [("kind", .str "percent")])]

/-- C1: every host-side failure path of `run_probe` — runtime or context
creation failure, host-API/wrapper/utils injection failure, script eval
failure, missing plugin object, missing probe method, synchronous throw,
promise rejection, unresolved promise, and a non-object returned or
resolved value — terminates in a PluginOutput consisting of exactly one
error badge; no path escapes without an output. -/
theorem run_probe_failure_paths_yield_error_output
    (plugin : LoadedPlugin) (appDataDir appVersion : String) (env : ProbeEnv)
    (rfcOk : String → Bool) (h : env.isFailure = true) :
    (run_probe plugin appDataDir appVersion env rfcOk).lines.length = 1 ∧
    ((run_probe plugin appDataDir appVersion env rfcOk).lines.all
      isErrorBadgeLine) = true := by
  cases env with
  | returnedValue v =>
    cases v <;>
      simp_all [ProbeEnv.isFailure, run_probe, JSValue.asObjectFields,
        error_output, error_line, isErrorBadgeLine]
  | returnedPromise po =>
    cases po with
    | resolved v =>
      cases v <;>
        simp_all [ProbeEnv.isFailure, run_probe, JSValue.asObjectFields,
          error_output, error_line, isErrorBadgeLine, extract_error_string]
    | rejected exc =>
      simp [run_probe, error_output, error_line, isErrorBadgeLine]
    | pending =>
      simp [run_probe, error_output, error_line, isErrorBadgeLine]
  | runtimeFail =>
    simp [run_probe, error_output, error_line, isErrorBadgeLine]
  | contextFail =>
    simp [run_probe, error_output, error_line, isErrorBadgeLine]
  | injectHostApiFail =>
    simp [run_probe, error_output, error_line, isErrorBadgeLine]
  | httpWrapperFail =>
    simp [run_probe, error_output, error_line, isErrorBadgeLine]
  | lsWrapperFail =>
    simp [run_probe, error_output, error_line, isErrorBadgeLine]
  | utilsFail =>
    simp [run_probe, error_output, error_line, isErrorBadgeLine]
  | evalFail =>
    simp [run_probe, error_output, error_line, isErrorBadgeLine]
  | missingPluginObj =>
    simp [run_probe, error_output, error_line, isErrorBadgeLine]
  | missingProbe =>
    simp [run_probe, error_output, error_line, isErrorBadgeLine]
  | callThrew exc =>
    simp [run_probe, error_output, error_line, isErrorBadgeLine]

/-- C1 witness: the script-eval-failure path at a concrete plugin. -/
theorem run_probe_failure_paths_yield_error_output_witness :
    (run_probe testPlugin "/data" "1.0" ProbeEnv.evalFail rfcNever).lines.length
      = 1 :=
  (run_probe_failure_paths_yield_error_output testPlugin "/data" "1.0"
    ProbeEnv.evalFail rfcNever rfl).1

/-- C3 counterexample: with entries `[{type:"bogus"}, 5]`, the non-object
entry at index 1 aborts the whole validation through the `?` operator:
the result is the single error `invalid line at index 1`, so the
unknown-type entry at index 0 does not receive its own badge and the
sequence is not processed entry by entry. -/
theorem non_object_entry_aborts_validation :
    parse_lines rfcNever
        [("lines", JSValue.arr
          [JSValue.obj [("type", JSValue.str "bogus")],
            JSValue.num (JSNum.val 5)])] =
      .error "invalid line at index 1" ∧
    (parse_lines rfcNever
        [("lines", JSValue.arr
          [JSValue.obj [("type", JSValue.str "bogus")],
            JSValue.num (JSNum.val 5)])]).isOk = false :=
  ⟨rfl, rfl⟩

/-- Helper: over a sequence of object entries, the indexed validator loop
succeeds and maps each entry to exactly one line. -/
theorem parseLinesAux_all_objects (rfcOk : String → Bool) (xs : List JSValue) :
    ∀ start : ℕ, (∀ v ∈ xs, (v.asObjectFields).isSome = true) →
      parseLinesAux rfcOk start xs = .ok (parseAllObjects rfcOk start xs) := by
  induction xs with
  | nil => intro start _; rfl
  | cons v rest ih =>
    intro start h
    have hv := h v (by simp)
    obtain ⟨o, ho⟩ := Option.isSome_iff_exists.mp hv
    have hrest : ∀ w ∈ rest, (w.asObjectFields).isSome = true :=
      fun w hw => h w (by simp [hw])
    simp [parseLinesAux, ho, ih (start + 1) hrest, parseAllObjects]

/-- Helper: the per-entry pass preserves the entry count. -/
theorem parseAllObjects_length (rfcOk : String → Bool) (xs : List JSValue) :
    ∀ start : ℕ, (parseAllObjects rfcOk start xs).length = xs.length := by
  induction xs with
  | nil => intro start; rfl
  | cons v rest ih => intro start; simp [parseAllObjects, ih (start + 1)]

/-- C3 amended: when every entry of the lines array converts to an object,
validation processes all of them — the output has exactly one line per
entry, an entry of unknown type being replaced by the error badge citing
its index — while an entry that is not an object aborts the whole
sequence (previous theorem). -/
theorem object_entries_validate_independently
    (rfcOk : String → Bool) (result : List (String × JSValue))
    (xs : List JSValue)
    (hget : getArrayField result "lines" = some xs)
    (hobj : ∀ v ∈ xs, (v.asObjectFields).isSome = true) :
    parse_lines rfcOk result = .ok (parseAllObjects rfcOk 0 xs) ∧
    (parseAllObjects rfcOk 0 xs).length = xs.length ∧
    (∀ (idx : ℕ) (entry : List (String × JSValue)),
      getString entry "type" ≠ "text" →
      getString entry "type" ≠ "progress" →
      getString entry "type" ≠ "badge" →
      parseEntry rfcOk idx entry =
        error_line ("unknown line type at index " ++ toString idx ++ ": " ++
          getString entry "type")) := by
  refine ⟨?_, parseAllObjects_length rfcOk xs 0, ?_⟩
  · simp [parse_lines, hget, parseLinesAux_all_objects rfcOk xs 0 hobj]
  · intro idx entry h1 h2 h3
    simp [parseEntry, h1, h2, h3]

/-- C3 amended witness: a two-entry sequence, unknown type then a text
line, validates to two lines. -/
theorem object_entries_validate_independently_witness :
    parse_lines rfcNever
        [("lines", JSValue.arr
          [JSValue.obj [("type", JSValue.str "bogus")],
            JSValue.obj [("type", JSValue.str "text"),
              ("label", JSValue.str "L"), ("value", JSValue.str "V")]])] =
      .ok (parseAllObjects rfcNever 0
        [JSValue.obj [("type", JSValue.str "bogus")],
          JSValue.obj [("type", JSValue.str "text"),
            ("label", JSValue.str "L"), ("value", JSValue.str "V")]]) :=
  (object_entries_validate_independently rfcNever
    [("lines", JSValue.arr
      [JSValue.obj [("type", JSValue.str "bogus")],
        JSValue.obj [("type", JSValue.str "text"),
          ("label", JSValue.str "L"), ("value", JSValue.str "V")]])]
    [JSValue.obj [("type", JSValue.str "bogus")],
      JSValue.obj [("type", JSValue.str "text"),
        ("label", JSValue.str "L"), ("value", JSValue.str "V")]]
    rfl (by decide)).1

/-- C4 counterexample: a result object with no `lines` field makes the
validated sequence come out empty, yet the single badge reads
`missing lines`, not `no lines returned`. -/
theorem missing_lines_field_badge_text :
    (run_probe testPlugin "/data" "1.0"
        (ProbeEnv.returnedValue (JSValue.obj [])) rfcNever).lines =
      [error_line "missing lines"] ∧
    error_line "missing lines" ≠ error_line "no lines returned" :=
  ⟨rfl, by decide⟩

/-- C4 amended: the probe output's lines are never empty; an empty lines
array yields the single `no lines returned` badge, while a missing (or
non-array) lines field yields the single `missing lines` badge. -/
theorem plugin_output_lines_never_empty :
    (∀ (plugin : LoadedPlugin) (a v : String) (env : ProbeEnv)
        (rfcOk : String → Bool),
      (run_probe plugin a v env rfcOk).lines ≠ []) ∧
    (∀ (plugin : LoadedPlugin) (a v : String) (rfcOk : String → Bool)
        (fields : List (String × JSValue)),
      getArrayField fields "lines" = some [] →
      (run_probe plugin a v (.returnedValue (.obj fields)) rfcOk).lines =
        [error_line "no lines returned"]) ∧
    (∀ (plugin : LoadedPlugin) (a v : String) (rfcOk : String → Bool)
        (fields : List (String × JSValue)),
      getArrayField fields "lines" = none →
      (run_probe plugin a v (.returnedValue (.obj fields)) rfcOk).lines =
        [error_line "missing lines"]) := by
  refine ⟨?_, ?_, ?_⟩
  · intro plugin a v env rfcOk
    cases env with
    | returnedValue val =>
      cases hval : val.asObjectFields with
      | none => simp [run_probe, hval, error_output]
      | some o =>
        simp only [run_probe, hval]
        cases hp : parse_lines rfcOk o with
        | error msg => simp [probeOutput, hp]
        | ok ls =>
          cases ls with
          | nil => simp [probeOutput, hp]
          | cons hd tl => simp [probeOutput, hp]
    | returnedPromise po =>
      cases po with
      | resolved val =>
        cases hval : val.asObjectFields with
        | none => simp [run_probe, hval, error_output]
        | some o =>
          simp only [run_probe, hval]
          cases hp : parse_lines rfcOk o with
          | error msg => simp [probeOutput, hp]
          | ok ls =>
            cases ls with
            | nil => simp [probeOutput, hp]
            | cons hd tl => simp [probeOutput, hp]
      | rejected exc => simp [run_probe, error_output]
      | pending => simp [run_probe, error_output]
    | runtimeFail => simp [run_probe, error_output]
    | contextFail => simp [run_probe, error_output]
    | injectHostApiFail => simp [run_probe, error_output]
    | httpWrapperFail => simp [run_probe, error_output]
    | lsWrapperFail => simp [run_probe, error_output]
    | utilsFail => simp [run_probe, error_output]
    | evalFail => simp [run_probe, error_output]
    | missingPluginObj => simp [run_probe, error_output]
    | missingProbe => simp [run_probe, error_output]
    | callThrew exc => simp [run_probe, error_output]
  · intro plugin a v rfcOk fields hget
    simp [run_probe, JSValue.asObjectFields, probeOutput, parse_lines, hget,
      parseLinesAux]
  · intro plugin a v rfcOk fields hget
    simp [run_probe, JSValue.asObjectFields, probeOutput, parse_lines, hget]

/-- C4 amended witness: the empty-array case at a concrete plugin. -/
theorem plugin_output_lines_never_empty_witness :
    (run_probe testPlugin "/data" "1.0"
        (.returnedValue (.obj [("lines", JSValue.arr [])])) rfcNever).lines =
      [error_line "no lines returned"] :=
  plugin_output_lines_never_empty.2.1 testPlugin "/data" "1.0" rfcNever
    [("lines", JSValue.arr [])] rfl

/-- C6 counterexample: a probe throwing the string `" boom "` yields the
badge text `boom` — the thrown string trimmed, not used verbatim. -/
theorem thrown_string_trimmed_not_verbatim :
    (run_probe testPlugin "/data" "1.0"
        (ProbeEnv.callThrew (JSValue.str " boom ")) rfcNever).lines =
      [error_line "boom"] ∧
    (" boom " : String) ≠ "boom" :=
  ⟨rfl, by decide⟩

/-- C6 amended: a thrown or rejected string is used trimmed as the error
message when its trim is non-empty (so `"boom"` still surfaces exactly as
`boom`); a string trimming to empty, and every non-string value, fall
back to the generic message. -/
theorem thrown_value_message_rule :
    (∀ (p : LoadedPlugin) (a v : String) (rfcOk : String → Bool) (s : String),
      trimChars s ≠ "" →
      run_probe p a v (.callThrew (.str s)) rfcOk =
        error_output p (trimChars s)) ∧
    (∀ (p : LoadedPlugin) (a v : String) (rfcOk : String → Bool) (s : String),
      trimChars s = "" →
      run_probe p a v (.callThrew (.str s)) rfcOk =
        error_output p fallbackErrorMessage) ∧
    (∀ (p : LoadedPlugin) (a v : String) (rfcOk : String → Bool)
        (exc : JSValue),
      exc.asStringVal = none →
      run_probe p a v (.callThrew exc) rfcOk =
        error_output p fallbackErrorMessage) ∧
    (∀ (p : LoadedPlugin) (a v : String) (rfcOk : String → Bool) (s : String),
      trimChars s ≠ "" →
      run_probe p a v (.returnedPromise (.rejected (.str s))) rfcOk =
        error_output p (trimChars s)) := by
  refine ⟨?_, ?_, ?_, ?_⟩
  · intro p a v rfcOk s h
    simp [run_probe, extract_error_string, h]
  · intro p a v rfcOk s h
    simp [run_probe, extract_error_string, h]
  · intro p a v rfcOk exc h
    cases exc <;> simp_all [run_probe, extract_error_string,
      JSValue.asStringVal]
  · intro p a v rfcOk s h
    simp [run_probe, extract_error_string, h]

/-- C6 amended witness: throwing `"boom"` yields exactly `boom`. -/
theorem thrown_value_message_rule_witness :
    run_probe testPlugin "/data" "1.0" (.callThrew (.str "boom")) rfcNever =
      error_output testPlugin "boom" := by
  have h := thrown_value_message_rule.1 testPlugin "/data" "1.0" rfcNever
    "boom" (by decide)
  have ht : trimChars "boom" = "boom" := rfl
  rw [ht] at h
  exact h

/-- C8: a percent progress line with valid `used` is rejected as an error
badge whenever its limit is not exactly 100, and accepted as a Progress
line with Percent format when the limit is exactly 100. -/
theorem percent_format_limit_rule (rfcOk : String → Bool) (idx : ℕ)
    (label : String) (u : ℚ) (hu : 0 ≤ u) :
    (∀ limit : JSNum, limit ≠ JSNum.val 100 →
      isErrorBadgeLine
        (parseEntry rfcOk idx (percentProbeLine label (.val u) limit)) =
        true) ∧
    parseEntry rfcOk idx (percentProbeLine label (.val u) (.val 100)) =
      .progress label u 100 .percent none none none := by
  constructor
  · intro limit hlim
    cases limit with
    | val l =>
      by_cases hl : l ≤ 0
      · simp [parseEntry, percentProbeLine, getString, getStringOpt, getValue,
          lookupField, JSValue.asNumber, hu.not_lt, hl, error_line,
          isErrorBadgeLine]
      · have hne : l ≠ 100 := by
          intro hcontra
          exact hlim (by rw [hcontra])
        simp [parseEntry, percentProbeLine, getString, getStringOpt, getValue,
          lookupField, JSValue.asNumber, getObjectField, JSValue.asObjectFields,
          JSValue.asStringVal, hu.not_lt, hl, hne, error_line, isErrorBadgeLine]
    | nan =>
      simp [parseEntry, percentProbeLine, getString, getStringOpt, getValue,
        lookupField, JSValue.asNumber, hu.not_lt, error_line, isErrorBadgeLine,
        JSNum.render]
    | inf =>
      simp [parseEntry, percentProbeLine, getString, getStringOpt, getValue,
        lookupField, JSValue.asNumber, hu.not_lt, error_line, isErrorBadgeLine,
        JSNum.render]
    | negInf =>
      simp [parseEntry, percentProbeLine, getString, getStringOpt, getValue,
        lookupField, JSValue.asNumber, hu.not_lt, error_line, isErrorBadgeLine,
        JSNum.render]
  · simp [parseEntry, percentProbeLine, getString, getStringOpt, getValue,
      lookupField, JSValue.asNumber, getObjectField, JSValue.asObjectFields,
      JSValue.asStringVal, hu.not_lt, finishProgress, parseResetsAt,
      parsePeriodDuration]

/-- C8 witness: limit 50 is rejected, at concrete arguments. -/
theorem percent_format_limit_rule_witness :
    isErrorBadgeLine
      (parseEntry rfcNever 0 (percentProbeLine "Usage" (.val 0) (.val 50))) =
      true :=
  (percent_format_limit_rule rfcNever 0 "Usage" 0 le_rfl).1 (.val 50)
    (by decide)

/-- C9: link sanitization trims each link's label and url, keeps exactly
the links whose trimmed label and url are non-empty with an http/https
url (dropping a link never affects the others — the result is a filter
over the trimmed list, defined for every input), and on the spec's
example only `{Status, https://a}` survives. -/
theorem sanitize_step (link : PluginLink) :
    (if trimChars link.label = "" ∨ trimChars link.url = "" then
        (none : Option PluginLink)
      else if ¬ (strStartsWith (trimChars link.url) "https://" = true ∨
          strStartsWith (trimChars link.url) "http://" = true) then none
      else some { label := trimChars link.label, url := trimChars link.url }) =
      if linkKept (trimmedLink link) = true then some (trimmedLink link)
      else none := by
  simp only [linkKept, trimmedLink]
  by_cases h1 : trimChars link.label = ""
  · simp [h1]
  · by_cases h2 : trimChars link.url = ""
    · simp [h1, h2]
    · by_cases h3 : strStartsWith (trimChars link.url) "https://" = true
      · simp [h1, h2, h3]
      · by_cases h4 : strStartsWith (trimChars link.url) "http://" = true
        · simp [h1, h2, h3, h4]
        · simp [h1, h2, h3, h4]

theorem sanitize_links_filter_rule :
    (∀ (pluginId : String) (links : List PluginLink),
      sanitize_plugin_links pluginId links =
        (links.map trimmedLink).filter linkKept) ∧
    sanitize_plugin_links "x"
        [{ label := "Status", url := "https://a" },
          { label := " ", url := "https://b" },
          { label := "Docs", url := "ftp://c" }] =
      [{ label := "Status", url := "https://a" }] := by
  constructor
  · intro pluginId links
    induction links with
    | nil => rfl
    | cons link rest ih =>
      rw [List.map_cons, List.filter_cons]
      simp only [sanitize_plugin_links, List.filterMap_cons] at ih ⊢
      rw [sanitize_step link]
      by_cases hk : linkKept (trimmedLink link) = true
      · rw [if_pos hk, if_pos hk, ih]
      · rw [if_neg hk, if_neg hk, ih]
  · rfl

/-- C10: every error line the system produces — `error_line` in the script
host and validator, `plugin_error_output` in the orchestrator's
pre-dispatch path — is a badge with label exactly `Error` and color
`#ef4444`, and the orchestrator classifies an output as failed precisely
by the presence of a badge whose label equals `Error`. -/
theorem error_badge_uniform_and_classification :
    (∀ message, error_line message =
      MetricLine.badge "Error" message (some "#ef4444") none) ∧
    (∀ plugin message, (plugin_error_output plugin message).lines =
      [MetricLine.badge "Error" message (some "#ef4444") none]) ∧
    (∀ plugin message, (error_output plugin message).lines =
      [MetricLine.badge "Error" message (some "#ef4444") none]) ∧
    (∀ output : PluginOutput, outputHasError output = true ↔
      ∃ text color subtitle,
        MetricLine.badge "Error" text color subtitle ∈ output.lines) := by
  refine ⟨fun _ => rfl, fun _ _ => rfl, fun _ _ => rfl, ?_⟩
  intro output
  constructor
  · intro h
    simp only [outputHasError] at h
    obtain ⟨line, hmem, hline⟩ := List.any_eq_true.mp h
    cases line with
    | badge label text color subtitle =>
      have hlabel : label = "Error" := by simpa using hline
      subst hlabel
      exact ⟨text, color, subtitle, hmem⟩
    | text _ _ _ _ => simp at hline
    | progress _ _ _ _ _ _ _ => simp at hline
  · rintro ⟨text, color, subtitle, hmem⟩
    simp only [outputHasError]
    exact List.any_eq_true.mpr ⟨_, hmem, by simp⟩

/-- C10 witness: the orchestrator's pre-dispatch error output is classified
as failed. -/
theorem error_badge_uniform_and_classification_witness :
    outputHasError (plugin_error_output testPlugin "x") = true :=
  (error_badge_uniform_and_classification.2.2.2
      (plugin_error_output testPlugin "x")).mpr
    ⟨"x", some "#ef4444", none, by simp [plugin_error_output]⟩

/-- Helper: one unfolding step of the worker fold; the counter passed on
is the decremented one, whatever the outcome. -/
theorem runBatchWorkers_cons (o : TaskOutcome) (rest : List TaskOutcome)
    (c : ℕ) :
    runBatchWorkers (o :: rest) c =
      ((taskEvents o c).1 ++ (runBatchWorkers rest (c - 1)).1,
        (runBatchWorkers rest (c - 1)).2) := rfl

/-- Helper: each finished execution decrements the counter exactly once,
so after all of them the counter dropped by the batch size. -/
theorem runBatchWorkers_counter (outcomes : List TaskOutcome) :
    ∀ c : ℕ, (runBatchWorkers outcomes c).2 = c - outcomes.length := by
  induction outcomes with
  | nil => intro c; rfl
  | cons o rest ih =>
    intro c
    rw [runBatchWorkers_cons]
    show (runBatchWorkers rest (c - 1)).2 = c - (o :: rest).length
    rw [ih (c - 1)]
    simp only [List.length_cons]
    omega

/-- Helper: while more executions remain than the counter holds, no
batch-complete event is emitted. -/
theorem runBatchWorkers_no_complete_of_lt (outcomes : List TaskOutcome) :
    ∀ c : ℕ, outcomes.length < c →
      ((runBatchWorkers outcomes c).1.countP isCompleteEvent) = 0 := by
  induction outcomes with
  | nil => intro c _; rfl
  | cons o rest ih =>
    intro c hc
    have hcne : ¬ (c = 1) := by
      simp only [List.length_cons] at hc; omega
    have hrest : rest.length < c - 1 := by
      simp only [List.length_cons] at hc; omega
    rw [runBatchWorkers_cons]
    simp only [List.countP_append]
    rw [ih (c - 1) hrest]
    cases o <;> simp [taskEvents, hcne, isCompleteEvent]

/-- Helper: with the counter equal to the number of remaining executions
(at least one), exactly one batch-complete event is emitted, and it is
the final event. -/
theorem runBatchWorkers_one_complete (outcomes : List TaskOutcome) :
    ∀ c : ℕ, c = outcomes.length → 1 ≤ c →
      ((runBatchWorkers outcomes c).1.countP isCompleteEvent) = 1 ∧
      (runBatchWorkers outcomes c).1.getLast? =
        some BatchEvent.batchComplete := by
  induction outcomes with
  | nil =>
    intro c hc hge
    subst hc
    exact absurd hge (by simp)
  | cons o rest ih =>
    intro c hc hge
    subst hc
    by_cases hrest : rest = []
    · subst hrest
      cases o <;> exact ⟨rfl, rfl⟩
    · have hlen : 1 ≤ rest.length := List.length_pos.mpr hrest
      have ihr := ih rest.length rfl hlen
      have htail_ne : (runBatchWorkers rest rest.length).1 ≠ [] := by
        intro hnil
        have h2 := ihr.2
        rw [hnil] at h2
        simp at h2
      have hcne : ¬ ((o :: rest).length = 1) := by
        simp only [List.length_cons]; omega
      rw [runBatchWorkers_cons]
      simp only [List.length_cons, Nat.add_sub_cancel]
      constructor
      · simp only [List.countP_append]
        rw [ihr.1]
        cases o <;> simp [taskEvents, hcne, hrest, isCompleteEvent]
      · rw [List.getLast?_append_of_ne_nil _ htail_ne]
        exact ihr.2

/-- C2: for a batch of N ≥ 1 executions finishing in any order and with
any mix of successful outputs, graceful error outputs, and caught panics,
the shared counter — initialized to N and decremented exactly once per
finished execution — ends at exactly zero, and exactly one batch-complete
event is emitted, by the decrement that observes the counter reach zero
(it is the final event of the batch). -/
theorem batch_emits_exactly_one_complete (outcomes : List TaskOutcome)
    (h : 1 ≤ outcomes.length) :
    (batchEvents outcomes).countP isCompleteEvent = 1 ∧
    (batchEvents outcomes).getLast? = some BatchEvent.batchComplete ∧
    (runBatchWorkers outcomes outcomes.length).2 = 0 ∧
    (∀ c : ℕ, (runBatchWorkers outcomes c).2 = c - outcomes.length) := by
  refine ⟨(runBatchWorkers_one_complete outcomes outcomes.length rfl h).1,
    (runBatchWorkers_one_complete outcomes outcomes.length rfl h).2,
    ?_, runBatchWorkers_counter outcomes⟩
  rw [runBatchWorkers_counter outcomes outcomes.length]
  omega

/-- C2 witness: a three-execution batch (one success, one graceful error,
one caught panic) emits exactly one batch-complete event. -/
theorem batch_emits_exactly_one_complete_witness :
    (batchEvents [TaskOutcome.panicked,
      TaskOutcome.completed (error_output testPlugin "x"),
      TaskOutcome.panicked]).countP isCompleteEvent = 1 :=
  (batch_emits_exactly_one_complete
    [TaskOutcome.panicked,
      TaskOutcome.completed (error_output testPlugin "x"),
      TaskOutcome.panicked] (by simp)).1

/-- Helper: erasing a key from the cache makes its lookup miss. -/
theorem assocLookup_erase (cache : CredentialCache) (key : String) :
    assocLookup (cacheErase cache key) key = none := by
  induction cache with
  | nil => rfl
  | cons kv rest ih =>
    by_cases h : kv.1 = key
    · simpa [cacheErase, List.filter_cons, h] using ih
    · simpa [cacheErase, List.filter_cons, h, assocLookup] using ih

/-- C5: a cache lookup for a plugin other than antigravity/gemini accepts
any cached payload, valid JSON or not; for antigravity and gemini the
cached payload is accepted exactly when it parses to an object whose
embedded expiry exceeds now plus 60 seconds; an accepted hit makes
`prepare_credential_overlay` build the overlay from the cached payload
with the cache untouched and without consulting the remote store, while a
rejected hit makes it behave exactly as a cache miss. -/
theorem cached_overlay_freshness_rule :
    (∀ (pluginId : String) (payload : Payload) (nowMs : ℤ),
      supports_credential_overlay pluginId = true →
      pluginId ≠ "antigravity" → pluginId ≠ "gemini" →
      should_use_cached_overlay pluginId payload nowMs = true) ∧
    (∀ (pluginId : String) (payload : Payload) (nowMs : ℤ),
      pluginId = "antigravity" ∨ pluginId = "gemini" →
      (should_use_cached_overlay pluginId payload nowMs = true ↔
        ∃ j fields e, payload.parse = some j ∧
          j.asObjectFields = some fields ∧
          embeddedExpiryMs pluginId fields = some e ∧
          nowMs + 60000 < e)) ∧
    (∀ (pluginId selection : String) (codexHomeEnv : Option String)
        (appDataDir fingerprint : String) (authFiles : List AuthFile)
        (fetch : AuthFile → Option Payload) (cache : CredentialCache)
        (nowMs : ℤ) (cached : Payload),
      assocLookup cache
          (overlayCacheKey pluginId (trimChars selection) fingerprint) =
        some cached →
      should_use_cached_overlay pluginId cached nowMs = true →
      supports_credential_overlay pluginId = true →
      trimChars selection ≠ "" →
      prepare_credential_overlay pluginId selection codexHomeEnv appDataDir
          fingerprint authFiles fetch cache nowMs =
        (if (credential_target_paths pluginId codexHomeEnv
              appDataDir).isEmpty then none
          else some
            { overlay := (credential_target_paths pluginId codexHomeEnv
                appDataDir).map (fun p => (p, cached))
              cache_key := some (overlayCacheKey pluginId
                (trimChars selection) fingerprint) },
          cache)) ∧
    (∀ (pluginId selection : String) (codexHomeEnv : Option String)
        (appDataDir fingerprint : String) (authFiles : List AuthFile)
        (fetch : AuthFile → Option Payload) (cache : CredentialCache)
        (nowMs : ℤ) (cached : Payload),
      assocLookup cache
          (overlayCacheKey pluginId (trimChars selection) fingerprint) =
        some cached →
      should_use_cached_overlay pluginId cached nowMs = false →
      (prepare_credential_overlay pluginId selection codexHomeEnv appDataDir
          fingerprint authFiles fetch cache nowMs).1 =
        (prepare_credential_overlay pluginId selection codexHomeEnv appDataDir
          fingerprint authFiles fetch
          (cacheErase cache
            (overlayCacheKey pluginId (trimChars selection) fingerprint))
          nowMs).1) := by
  refine ⟨?_, ?_, ?_, ?_⟩
  · intro pluginId payload nowMs _ h1 h2
    simp [should_use_cached_overlay, h1, h2]
  · intro pluginId payload nowMs hid
    rcases hid with rfl | rfl
    · simp only [should_use_cached_overlay]
      rw [if_neg (by simp)]
      cases hp : payload.parse with
      | none => simp [hp]
      | some j =>
        cases hf : j.asObjectFields with
        | none => simp [hp, hf]
        | some fields =>
          cases he : embeddedExpiryMs "antigravity" fields with
          | none => simp [hp, hf, he]
          | some e => simp [hp, hf, he]
    · simp only [should_use_cached_overlay]
      rw [if_neg (by simp)]
      cases hp : payload.parse with
      | none => simp [hp]
      | some j =>
        cases hf : j.asObjectFields with
        | none => simp [hp, hf]
        | some fields =>
          cases he : embeddedExpiryMs "gemini" fields with
          | none => simp [hp, hf, he]
          | some e => simp [hp, hf, he]
  · intro pluginId selection codexHomeEnv appDataDir fingerprint authFiles
      fetch cache nowMs cached hlook hshould hsupp hsel
    by_cases hempty : (credential_target_paths pluginId codexHomeEnv
        appDataDir).isEmpty = true
    · simp [prepare_credential_overlay, hsupp, hsel, hlook, hshould, hempty]
    · simp [prepare_credential_overlay, hsupp, hsel, hlook, hshould, hempty]
  · intro pluginId selection codexHomeEnv appDataDir fingerprint authFiles
      fetch cache nowMs cached hlook hshould
    by_cases hsupp : supports_credential_overlay pluginId = true
    · by_cases hsel : trimChars selection = ""
      · simp [prepare_credential_overlay, hsupp, hsel]
      · simp only [prepare_credential_overlay, hsupp, hsel]
        cases hfind : findAuthFile authFiles (trimChars selection) with
        | none =>
          simp [hlook, hshould, assocLookup_erase, hfind]
        | some af =>
          by_cases hdis : (af.disabled || af.unavailable) = true
          · simp [hlook, hshould, assocLookup_erase, hfind, hdis]
          · by_cases hprov :
              provider_matches_plugin pluginId af.provider = true
            · cases hfetch : fetch af with
              | none =>
                simp [hlook, hshould, assocLookup_erase, hfind, hdis, hprov,
                  hfetch]
              | some t =>
                simp only [hlook, hshould, assocLookup_erase, hfind, hdis,
                  hprov, hfetch, if_false, Bool.false_eq_true, not_false_iff,
                  if_true]
                simp [hlook, hshould, assocLookup_erase, hfind, hdis, hprov,
                  hfetch]
                split_ifs <;> rfl
            · simp [hlook, hshould, assocLookup_erase, hfind, hdis, hprov]
    · simp [prepare_credential_overlay, hsupp]

/-- C5 witness: for a bearer-token-only plugin, even a malformed cached
string is accepted. -/
theorem cached_overlay_freshness_rule_witness :
    should_use_cached_overlay "codex" (Payload.raw "not-valid-json") 0 = true :=
  cached_overlay_freshness_rule.1 "codex" (Payload.raw "not-valid-json") 0
    (by decide) (by decide) (by decide)

/-- Helper: resolution returns none, leaving the cache alone, for a plugin
id that does not participate in overlay substitution. -/
theorem prepare_none_of_unsupported (pluginId selection : String)
    (codexHomeEnv : Option String) (appDataDir fingerprint : String)
    (authFiles : List AuthFile) (fetch : AuthFile → Option Payload)
    (cache : CredentialCache) (nowMs : ℤ)
    (h : supports_credential_overlay pluginId = false) :
    prepare_credential_overlay pluginId selection codexHomeEnv appDataDir
      fingerprint authFiles fetch cache nowMs = (none, cache) := by
  simp [prepare_credential_overlay, h]

/-- Helper: resolution returns none, leaving the cache alone, for a
selection that is blank after trimming. -/
theorem prepare_none_of_blank (pluginId selection : String)
    (codexHomeEnv : Option String) (appDataDir fingerprint : String)
    (authFiles : List AuthFile) (fetch : AuthFile → Option Payload)
    (cache : CredentialCache) (nowMs : ℤ)
    (h : trimChars selection = "") :
    prepare_credential_overlay pluginId selection codexHomeEnv appDataDir
      fingerprint authFiles fetch cache nowMs = (none, cache) := by
  by_cases hsupp : supports_credential_overlay pluginId = true
  · simp [prepare_credential_overlay, hsupp, h]
  · simp [prepare_credential_overlay, hsupp]

/-- Helper: the resolution loop records neither an overlay nor an error
for an id without a selection entry. -/
theorem resolveLoop_no_entry (fp : String) (files : List AuthFile)
    (fetch : AuthFile → Option Payload) (chEnv : Option String)
    (appData : String) (nowMs : ℤ) (selections : List (String × String))
    (id : String) (hid : assocLookup selections id = none) :
    ∀ (plugins : List LoadedPlugin) (cache : CredentialCache),
      assocLookup (resolveLoop fp files fetch chEnv appData nowMs selections
        plugins cache).2.1 id = none := by
  intro plugins
  induction plugins with
  | nil => intro cache; rfl
  | cons p rest ih =>
    intro cache
    cases hsel : assocLookup selections p.manifest.id with
    | none =>
      simpa [resolveLoop, hsel] using ih cache
    | some sel =>
      have hne : ¬ (p.manifest.id = id) := by
        intro hcontra
        rw [hcontra, hid] at hsel
        exact Option.noConfusion hsel
      cases hprep : (prepare_credential_overlay p.manifest.id sel chEnv
          appData fp files fetch cache nowMs).1 with
      | some pr =>
        simpa [resolveLoop, hsel, hprep] using ih _
      | none =>
        simpa [resolveLoop, hsel, hprep, assocLookup, hne] using ih _

/-- Helper: an error message keyed by an id without a selection entry is
never produced on the configuration-failure paths either. -/
theorem assocLookup_filterMap_msg (selections : List (String × String))
    (msg id : String) (hid : assocLookup selections id = none) :
    ∀ plugins : List LoadedPlugin,
      assocLookup (plugins.filterMap (fun p =>
        if (assocLookup selections p.manifest.id).isSome then
          some (p.manifest.id, msg)
        else none)) id = none := by
  intro plugins
  induction plugins with
  | nil => rfl
  | cons q rest ih =>
    by_cases hq : (assocLookup selections q.manifest.id).isSome = true
    · have hne : ¬ (q.manifest.id = id) := by
        intro hcontra
        rw [hcontra, hid] at hq
        simp at hq
      simpa [List.filterMap_cons, hq, assocLookup, hne] using ih
    · simpa [List.filterMap_cons, hq] using ih

/-- Helper: the resolution loop records the generic overlay error for an
id whose selection entry makes resolution return none unconditionally
(non-participating id or blank selection). -/
theorem resolveLoop_records_error (fp : String) (files : List AuthFile)
    (fetch : AuthFile → Option Payload) (chEnv : Option String)
    (appData : String) (nowMs : ℤ) (selections : List (String × String))
    (id sel : String) (hid : assocLookup selections id = some sel)
    (hnone : supports_credential_overlay id = false ∨ trimChars sel = "") :
    ∀ (plugins : List LoadedPlugin) (cache : CredentialCache),
      (∃ p ∈ plugins, p.manifest.id = id) →
      assocLookup (resolveLoop fp files fetch chEnv appData nowMs selections
        plugins cache).2.1 id = some overlayFailMessage := by
  intro plugins
  induction plugins with
  | nil =>
    intro cache hex
    obtain ⟨p, hp, _⟩ := hex
    simp at hp
  | cons q rest ih =>
    intro cache hex
    by_cases hq : q.manifest.id = id
    · have hpre : prepare_credential_overlay q.manifest.id sel chEnv appData
          fp files fetch cache nowMs = (none, cache) := by
        rcases hnone with h | h
        · exact prepare_none_of_unsupported _ _ _ _ _ _ _ _ _ (hq ▸ h)
        · exact prepare_none_of_blank _ _ _ _ _ _ _ _ _ h
      rw [hq] at hpre
      simp [resolveLoop, hq, hid, hpre, assocLookup]
    · have hex' : ∃ p ∈ rest, p.manifest.id = id := by
        rcases hex with ⟨p, hp, hpid⟩
        rcases List.mem_cons.mp hp with rfl | hmem
        · exact absurd hpid hq
        · exact ⟨p, hmem, hpid⟩
      cases hsel : assocLookup selections q.manifest.id with
      | none =>
        simpa [resolveLoop, hsel] using ih _ hex'
      | some s' =>
        cases hprep : (prepare_credential_overlay q.manifest.id s' chEnv
            appData fp files fetch cache nowMs).1 with
        | some pr =>
          simpa [resolveLoop, hsel, hprep] using ih _ hex'
        | none =>
          simpa [resolveLoop, hsel, hprep, assocLookup, hq] using ih _ hex'

/-- C7 counterexample: plugin `codex` participates in overlay substitution
and its selection entry is blank, so resolution returns none — yet the
orchestrator records the generic per-plugin overlay error for it, and the
worker then produces the error output instead of dispatching the probe
normally. -/
theorem blank_selection_records_overlay_error :
    assocLookup
        (resolveOverlays [codexPlugin] [("codex", "  ")]
          (CliProxySetup.ok "fp" [] (fun _ => none)) none "/data"
          ([] : CredentialCache) 0).2.1 "codex" =
      some overlayFailMessage ∧
    executionOutput codexPlugin (some overlayFailMessage) "/data" "1.0"
        ProbeEnv.evalFail rfcNever =
      plugin_error_output codexPlugin overlayFailMessage :=
  ⟨rfl, rfl⟩

/-- C7 amended: resolution itself returns none — not an error value — for
a non-participating plugin id or a blank selection, and a plugin with no
account-selection entry at all is dispatched normally with no recorded
overlay error; but a plugin whose selection entry makes resolution return
none — including a blank selection or a non-participating id — gets the
generic per-plugin overlay error recorded, and its worker then produces
the error output directly instead of running the sandbox. -/
theorem overlay_none_and_error_recording :
    (∀ (pluginId selection : String) (codexHomeEnv : Option String)
        (appDataDir fingerprint : String) (authFiles : List AuthFile)
        (fetch : AuthFile → Option Payload) (cache : CredentialCache)
        (nowMs : ℤ),
      supports_credential_overlay pluginId = false →
      prepare_credential_overlay pluginId selection codexHomeEnv appDataDir
        fingerprint authFiles fetch cache nowMs = (none, cache)) ∧
    (∀ (pluginId selection : String) (codexHomeEnv : Option String)
        (appDataDir fingerprint : String) (authFiles : List AuthFile)
        (fetch : AuthFile → Option Payload) (cache : CredentialCache)
        (nowMs : ℤ),
      trimChars selection = "" →
      prepare_credential_overlay pluginId selection codexHomeEnv appDataDir
        fingerprint authFiles fetch cache nowMs = (none, cache)) ∧
    (∀ (plugins : List LoadedPlugin) (selections : List (String × String))
        (setup : CliProxySetup) (chEnv : Option String) (appData : String)
        (cache : CredentialCache) (nowMs : ℤ) (id : String),
      assocLookup selections id = none →
      assocLookup (resolveOverlays plugins selections setup chEnv appData
        cache nowMs).2.1 id = none) ∧
    (∀ (plugins : List LoadedPlugin) (selections : List (String × String))
        (fp : String) (files : List AuthFile)
        (fetch : AuthFile → Option Payload) (chEnv : Option String)
        (appData : String) (cache : CredentialCache) (nowMs : ℤ)
        (id sel : String),
      (∃ p ∈ plugins, p.manifest.id = id) →
      assocLookup selections id = some sel →
      (supports_credential_overlay id = false ∨ trimChars sel = "") →
      assocLookup (resolveOverlays plugins selections
        (.ok fp files fetch) chEnv appData cache nowMs).2.1 id =
        some overlayFailMessage) ∧
    (∀ (plugin : LoadedPlugin) (a v : String) (env : ProbeEnv)
        (rfcOk : String → Bool),
      executionOutput plugin none a v env rfcOk =
        run_probe plugin a v env rfcOk) ∧
    (∀ (plugin : LoadedPlugin) (msg a v : String) (env : ProbeEnv)
        (rfcOk : String → Bool),
      executionOutput plugin (some msg) a v env rfcOk =
        plugin_error_output plugin msg) := by
  refine ⟨?_, ?_, ?_, ?_, fun _ _ _ _ _ => rfl, fun _ _ _ _ _ _ => rfl⟩
  · intro pluginId selection codexHomeEnv appDataDir fingerprint authFiles
      fetch cache nowMs h
    exact prepare_none_of_unsupported _ _ _ _ _ _ _ _ _ h
  · intro pluginId selection codexHomeEnv appDataDir fingerprint authFiles
      fetch cache nowMs h
    exact prepare_none_of_blank _ _ _ _ _ _ _ _ _ h
  · intro plugins selections setup chEnv appData cache nowMs id hid
    by_cases hempty : selections.isEmpty = true
    · simp [resolveOverlays, hempty, assocLookup]
    · cases setup with
      | ok fp files fetch =>
        simpa [resolveOverlays, hempty] using
          resolveLoop_no_entry fp files fetch chEnv appData nowMs selections
            id hid plugins cache
      | listFailed =>
        simpa [resolveOverlays, hempty] using
          assocLookup_filterMap_msg selections authListFailMessage id hid
            plugins
      | notConfigured =>
        simpa [resolveOverlays, hempty] using
          assocLookup_filterMap_msg selections notConfiguredMessage id hid
            plugins
      | configReadFailed =>
        simpa [resolveOverlays, hempty] using
          assocLookup_filterMap_msg selections configReadFailMessage id hid
            plugins
  · intro plugins selections fp files fetch chEnv appData cache nowMs id sel
      hex hid hnone
    have hne : ¬ (selections.isEmpty = true) := by
      cases selections with
      | nil => exact absurd hid (by simp [assocLookup])
      | cons s rest => simp
    simpa [resolveOverlays, hne] using
      resolveLoop_records_error fp files fetch chEnv appData nowMs selections
        id sel hid hnone plugins cache hex

/-- C7 amended witness: a plugin id outside the overlay set resolves to
none with the cache untouched. -/
theorem overlay_none_and_error_recording_witness :
    prepare_credential_overlay "other" "acct" none "/data" "fp" []
      (fun _ => none) ([] : CredentialCache) 0 =
      (none, ([] : CredentialCache)) :=
  overlay_none_and_error_recording.1 "other" "acct" none "/data" "fp" []
    (fun _ => none) [] 0 (by decide)

end Openusage
